import Mathlib

set_option maxRecDepth 8192

/-!
Verification of the uuiddraft repository (Go) against its specification.

The development shallowly embeds the relevant Go source:
* `src/uuid.go` — the current implementation: type `UUID [16]byte`, its
  `Variant` / `Version` / `String` accessors, `Parse`, the `clockSequence`
  counter, and the `V6Generator` / `V7Generator` state machines;
* `src/unnamed/part_003` — the earlier draft revision containing
  `generatorV6.nextTimestampAndSequence`.

Conventions: Go bytes are `Nat` values; every byte-typed write is masked
with `% 256`.  Go `uint16`/`uint32` conversions are `% 65536` / `Int.emod`
by `2^32`.  Go `int64` division truncates toward zero and is modelled by
`Int.tdiv`; Go arithmetic right shift on `int64` is `Int.shiftRight`.
Go `time.Time` is modelled by its `(sec, nsec)` pair.  Entropy reads are
explicit inputs: `some bytes` for a successful read, `none` for a failing
one.  Stateful methods become functions from the receiver state (plus the
values consumed from the clock and the entropy source during that call) to
a result record that carries the written identifier, the returned error and
the post-call generator state.
-/

namespace UUIDDraft

/-- Model of Go `type UUID [16]byte` (src/uuid.go line 23): sixteen bytes. -/
structure UUID where
  b0 : Nat
  b1 : Nat
  b2 : Nat
  b3 : Nat
  b4 : Nat
  b5 : Nat
  b6 : Nat
  b7 : Nat
  b8 : Nat
  b9 : Nat
  b10 : Nat
  b11 : Nat
  b12 : Nat
  b13 : Nat
  b14 : Nat
  b15 : Nat
deriving DecidableEq

/-- Go `func (u UUID) Variant() int { return int(u[8] >> 6) }`. -/
def UUID.Variant (u : UUID) : Nat := u.b8 >>> 6

/-- Go `func (u UUID) Version() int { return int(u[6] >> 4) }`. -/
def UUID.Version (u : UUID) : Nat := u.b6 >>> 4

/-- One digit of Go's `encoding/hex` table "0123456789abcdef" (index below 16). -/
def hexDigitChar (d : Nat) : Char :=
  if d < 10 then Char.ofNat (48 + d) else Char.ofNat (97 + (d - 10))

/-- Go `hex.Encode` of a single byte `b`: the table is indexed with
`b >> 4` and `b & 0x0f`. -/
def byteChars (b : Nat) : List Char :=
  [hexDigitChar ((b % 256) >>> 4), hexDigitChar ((b % 256) &&& 15)]

/-- Character sequence written by Go `func (u UUID) String() string`
(src/uuid.go lines 35-49): hex bytes 0-3, a dash, bytes 4-5, a dash,
bytes 6-7, a dash, bytes 8-9, a dash, bytes 10-15. -/
def UUID.chars (u : UUID) : List Char :=
  byteChars u.b0 ++ byteChars u.b1 ++ byteChars u.b2 ++ byteChars u.b3 ++ ['-'] ++
  byteChars u.b4 ++ byteChars u.b5 ++ ['-'] ++
  byteChars u.b6 ++ byteChars u.b7 ++ ['-'] ++
  byteChars u.b8 ++ byteChars u.b9 ++ ['-'] ++
  byteChars u.b10 ++ byteChars u.b11 ++ byteChars u.b12 ++
  byteChars u.b13 ++ byteChars u.b14 ++ byteChars u.b15

/-- Go `func (u UUID) String() string`. -/
def UUID.String (u : UUID) : String := String.mk u.chars

/-- Errors `Parse` can return: the typed `ErrInvalidUUID`
(src/uuid.go line 226), or an error propagated from `hex.Decode`. -/
inductive ParseError where
  | invalidUUID
  | hexError
deriving DecidableEq

/-- Go `encoding/hex` `fromHexChar`: accepts `0-9`, `a-f`, `A-F`. -/
def decodeHexChar (c : Char) : Option Nat :=
  if '0' ≤ c ∧ c ≤ '9' then some (c.toNat - 48)
  else if 'a' ≤ c ∧ c ≤ 'f' then some (c.toNat - 97 + 10)
  else if 'A' ≤ c ∧ c ≤ 'F' then some (c.toNat - 65 + 10)
  else none

/-- Go `hex.Decode`: successive pairs of hex digits become bytes; a non-hex
digit (or an odd tail) is an error. -/
def decodeHexPairs : List Char → Except ParseError (List Nat)
  | [] => Except.ok []
  | c1 :: c2 :: rest =>
    match decodeHexChar c1, decodeHexChar c2 with
    | some hi, some lo =>
      match decodeHexPairs rest with
      | Except.ok bs => Except.ok ((hi * 16 + lo) :: bs)
      | Except.error e => Except.error e
    | _, _ => Except.error ParseError.hexError
  | [_] => Except.error ParseError.hexError

/-- Go `hex.Decode(id[:], src)` writing into a zeroed `UUID{}`. -/
def uuidOfBytes (bs : List Nat) : UUID :=
  ⟨bs.getD 0 0, bs.getD 1 0, bs.getD 2 0, bs.getD 3 0,
   bs.getD 4 0, bs.getD 5 0, bs.getD 6 0, bs.getD 7 0,
   bs.getD 8 0, bs.getD 9 0, bs.getD 10 0, bs.getD 11 0,
   bs.getD 12 0, bs.getD 13 0, bs.getD 14 0, bs.getD 15 0⟩

/-- Go `func Parse(raw string) (UUID, error)` (src/uuid.go lines 231-242),
over the character sequence of the input.  Note the hyphen test joins the
four position checks with `&&`, exactly as the source does. -/
def parseChars (raw : List Char) : Except ParseError UUID :=
  if raw.length ≠ 36 then Except.error ParseError.invalidUUID
  else if raw.getD 8 ' ' ≠ '-' ∧ raw.getD 13 ' ' ≠ '-' ∧
          raw.getD 18 ' ' ≠ '-' ∧ raw.getD 23 ' ' ≠ '-' then
    Except.error ParseError.invalidUUID
  else
    match decodeHexPairs (raw.take 8 ++ (raw.drop 9).take 4 ++ (raw.drop 14).take 4 ++
            (raw.drop 19).take 4 ++ raw.drop 24) with
    | Except.ok bs => Except.ok (uuidOfBytes bs)
    | Except.error e => Except.error e

/-- Go `func Parse(raw string) (UUID, error)`. -/
def Parse (raw : String) : Except ParseError UUID := parseChars raw.data

/-- Model of Go `time.Time`: wall-clock seconds and the nanosecond part.
`Unix()` is `sec`; `Nanosecond()` is `nsec` (in `[0, 1e9)`). -/
structure Time where
  sec : Int
  nsec : Int
deriving DecidableEq

/-- Go `a.Before(b)`: strict chronological order on `(sec, nsec)`. -/
def Time.Before (a b : Time) : Bool :=
  a.sec < b.sec || (a.sec == b.sec && a.nsec < b.nsec)

/-- Go `t.UnixMilli()`: `sec*1000 + nsec/1e6` (int64 division). -/
def Time.UnixMilli (t : Time) : Int := t.sec * 1000 + Int.tdiv t.nsec 1000000

/-- Value of `gregEpoch.Unix()` where
`gregEpoch = time.Date(1582, time.October, 15, 0, 0, 0, 0, time.UTC)`
(src/uuid.go line 84); its `Nanosecond()` is 0. -/
def gregEpochUnix : Int := -12219292800

/-- Go `func gregFormat(t time.Time) int64` (src/uuid.go lines 107-109):
`(t.Unix()-gregEpoch.Unix())*1e7 + int64(t.Nanosecond()-gregEpoch.Nanosecond())/1e2`. -/
def gregFormat (t : Time) : Int :=
  (t.sec - gregEpochUnix) * 10000000 + Int.tdiv (t.nsec - 0) 100

/-- Go conversion `uint32(x)` on an `int64` value: the low 32 bits. -/
def u32 (x : Int) : Nat := (Int.emod x 4294967296).toNat

/-- Go conversion `uint16(x)` on an `int64` value: the low 16 bits. -/
def u16 (x : Int) : Nat := (Int.emod x 65536).toNat

/-- Model of Go `type clockSequence uint16` (src/uuid.go line 69): values
are the 16-bit pattern as a `Nat`.  The source comment calls it
"a 14 bits counter". -/
abbrev clockSequence := Nat

/-- Go `func randomClockSequence() clockSequence` (src/uuid.go lines 71-77)
with the two bytes read from `crypto/rand` made explicit:
`((clockSequence(b[0]) << 8) | clockSequence(b[1])) & clockSequence(0xdfff)`. -/
def randomClockSequence (byte0 byte1 : Nat) : clockSequence :=
  ((((byte0 % 256) <<< 8) % 65536) ||| (byte1 % 256)) &&& 0xdfff

/-- Go `func (cs clockSequence) Incr() clockSequence` (src/uuid.go lines
79-81): `(cs + 1) & clockSequence(0xdfff)` in `uint16` arithmetic. -/
def clockSequence.Incr (cs : clockSequence) : clockSequence :=
  ((cs + 1) % 65536) &&& 0xdfff

/-- Mutable state of Go `type V6Generator struct` (src/uuid.go lines
87-95): the lazily initialised node bytes, the clock sequence, and the
previous timestamp.  The `now`/`rand` capabilities are modelled as the
values they deliver during a call. -/
structure V6Generator where
  node : List Nat
  cs : clockSequence
  prevTime : Time
deriving DecidableEq

/-- Result of one call to `V6Generator.Read`: the bytes of the caller's
identifier buffer after the call, the returned error, and the post-call
generator state. -/
structure V6Out where
  id : UUID
  err : Option String
  gen : V6Generator
deriving DecidableEq

/-- Field packing and state update of `V6Generator.Read` after a
successful node initialisation (src/uuid.go lines 124-140). -/
def v6pack (g : V6Generator) (idIn : UUID) (n : Time) : V6Out :=
  let g1 := if n.Before g.prevTime then { g with cs := g.cs.Incr } else g
  let g2 := { g1 with prevTime := n }
  let cs := g2.cs
  let t := gregFormat n
  let th := u32 (Int.shiftRight t 28)
  let tm := u16 (Int.shiftRight t 12)
  let tl := u16 t
  let csv := cs % 65536
  let id : UUID :=
    { b0 := (th >>> 24) % 256
      b1 := (th >>> 16) % 256
      b2 := (th >>> 8) % 256
      b3 := th % 256
      b4 := (tm >>> 8) % 256
      b5 := tm % 256
      b6 := (((tl >>> 8) % 256) &&& 15) ||| 96
      b7 := tl % 256
      b8 := (((csv >>> 8) % 256) &&& 63) ||| 128
      b9 := csv % 256
      b10 := (g2.node.getD 0 idIn.b10) % 256
      b11 := (g2.node.getD 1 idIn.b11) % 256
      b12 := (g2.node.getD 2 idIn.b12) % 256
      b13 := (g2.node.getD 3 idIn.b13) % 256
      b14 := (g2.node.getD 4 idIn.b14) % 256
      b15 := (g2.node.getD 5 idIn.b15) % 256 }
  ⟨id, none, g2⟩

/-- Go `func (g *V6Generator) Read(id *UUID) error` (src/uuid.go lines
113-141).  `n` is the value delivered by `g.now()`; `entropy` is the
outcome of the 6-byte `g.rand.Read` used for lazy node initialisation
(`none` models a failing read; it is only consulted when the node is
still unset). -/
def V6Generator.Read (g : V6Generator) (idIn : UUID) (n : Time)
    (entropy : Option (List Nat)) : V6Out :=
  if g.node.isEmpty then
    match entropy with
    | none => ⟨idIn, some "could not initialise node ID", g⟩
    | some r => v6pack { g with node := r } idIn n
  else v6pack g idIn n

/-- Model of Go `type V7Generator struct` (src/uuid.go lines 152-155): the
two capability fields.  `now`/`rand` are indexed by an external world
state (a call counter), so that the values a call consumes are explicit
while the fields themselves are plain data that a call could, in
principle, replace. -/
structure V7Generator where
  now : Nat → Time
  rand : Nat → Option (List Nat)

/-- Result of one call to `V7Generator.Read`. -/
structure V7Out where
  id : UUID
  err : Option String
  gen : V7Generator

/-- Go `func (g V7Generator) Read(id *UUID) error` (src/uuid.go lines
166-178), a value receiver: reads 10 bytes of entropy (failure is
returned immediately), takes `g.now().UnixMilli()`, packs the fields and
stamps version 7 and the variant. -/
def V7Generator.Read (g : V7Generator) (w : Nat) (idIn : UUID) : V7Out :=
  match g.rand w with
  | none => ⟨idIn, some "entropy read failed", g⟩
  | some r =>
    let um := (g.now w).UnixMilli
    let uh := u32 (Int.shiftRight um 16)
    let ul := u16 um
    let id : UUID :=
      { b0 := (uh >>> 24) % 256
        b1 := (uh >>> 16) % 256
        b2 := (uh >>> 8) % 256
        b3 := uh % 256
        b4 := (ul >>> 8) % 256
        b5 := ul % 256
        b6 := ((r.getD 0 idIn.b6 % 256) &&& 15) ||| 112
        b7 := r.getD 1 idIn.b7 % 256
        b8 := ((r.getD 2 idIn.b8 % 256) &&& 63) ||| 128
        b9 := r.getD 3 idIn.b9 % 256
        b10 := r.getD 4 idIn.b10 % 256
        b11 := r.getD 5 idIn.b11 % 256
        b12 := r.getD 6 idIn.b12 % 256
        b13 := r.getD 7 idIn.b13 % 256
        b14 := r.getD 8 idIn.b14 % 256
        b15 := r.getD 9 idIn.b15 % 256 }
    ⟨id, none, g⟩

/-- Value of `unixToGregorian = -gregorianToUnix` in src/unnamed/part_003
(`gregorianToUnix = gregorianEpoch.Unix() = -12219292800`). -/
def unixToGregorian : Int := 12219292800

/-- Mutable state of the draft `type generatorV6 struct`
(src/unnamed/part_003): `lastTimestamp int64` and `lastSequence int16`.
The signed 16-bit `lastSequence` is modelled by its two's-complement bit
pattern (a `Nat` below 65536); the `-1` sentinel is the pattern 65535. -/
structure generatorV6 where
  lastTimestamp : Int
  lastSequence : Nat
deriving DecidableEq

/-- Go `func (g *generatorV6) nextTimestampAndSequence() (int64, uint16)`
(src/unnamed/part_003 lines 100-117), with the clock value (`UnixNano`)
and the two entropy bytes of the first-call draw made explicit:
`ts := now/100 + unixToGregorian*1e7`; if `lastSequence == -1` the draw is
`int16(b[0])<<8 + int16(b[1])`, else if `ts <= lastTimestamp` the sequence
is incremented; the result is masked with `0x3fff` and stored. -/
def generatorV6.nextTimestampAndSequence (g : generatorV6) (nowNano : Int)
    (byte0 byte1 : Nat) : (Int × Nat) × generatorV6 :=
  let ts := Int.tdiv nowNano 100 + unixToGregorian * 10000000
  let seq0 :=
    if g.lastSequence = 65535 then ((byte0 % 256) * 256 + (byte1 % 256)) % 65536
    else if ts ≤ g.lastTimestamp then (g.lastSequence + 1) % 65536
    else g.lastSequence
  let seq := seq0 &&& 0x3fff
  ((ts, seq), ⟨ts, seq⟩)

/-- Go `nilUUID` (src/uuid.go line 56): the all-zero identifier. -/
def nilUUID : UUID := ⟨0, 0, 0, 0, 0, 0, 0, 0, 0, 0, 0, 0, 0, 0, 0, 0⟩

/-- Masking a natural number with `0x3fff` keeps its value modulo `2^14`. -/
theorem and_mask14 (x : Nat) : x &&& 16383 = x % 16384 := by
  have h := Nat.and_pow_two_sub_one_eq_mod x 14
  norm_num at h
  exact h

/-- Stamping `(b & 0x0f) | 0x60` on any byte makes its high nibble 6. -/
theorem version_stamp6 : ∀ x : Fin 256, ((x.val &&& 15) ||| 96) >>> 4 = 6 := by decide

/-- Stamping `(b & 0x0f) | 0x70` on any byte makes its high nibble 7. -/
theorem version_stamp7 : ∀ x : Fin 256, ((x.val &&& 15) ||| 112) >>> 4 = 7 := by decide

/-- Stamping `(b & 0x3f) | 0x80` on any byte makes its top two bits `10`. -/
theorem variant_stamp : ∀ x : Fin 256, ((x.val &&& 63) ||| 128) >>> 6 = 2 := by decide

/-- Decoding inverts encoding on every single hex digit. -/
theorem hexRoundFin : ∀ d : Fin 16, decodeHexChar (hexDigitChar d.val) = some d.val := by
  decide

/-- Decoding inverts encoding on the high digit of a byte. -/
theorem decode_hexDigit_hi (b : Nat) :
    decodeHexChar (hexDigitChar ((b % 256) >>> 4)) = some ((b % 256) >>> 4) :=
  hexRoundFin ⟨(b % 256) >>> 4, by rw [Nat.shiftRight_eq_div_pow]; omega⟩

/-- Decoding inverts encoding on the low digit of a byte. -/
theorem decode_hexDigit_lo (b : Nat) :
    decodeHexChar (hexDigitChar ((b % 256) &&& 15)) = some ((b % 256) &&& 15) :=
  hexRoundFin ⟨(b % 256) &&& 15, by
    have h := Nat.and_pow_two_sub_one_eq_mod (b % 256) 4
    norm_num at h
    omega⟩

/-- Reassembling the two hex digits of a byte recovers the byte. -/
theorem byte_split (b : Nat) (h : b < 256) :
    ((b % 256) >>> 4) * 16 + ((b % 256) &&& 15) = b := by
  have h15 : (b % 256) &&& 15 = b % 16 := by
    have h4 := Nat.and_pow_two_sub_one_eq_mod (b % 256) 4
    norm_num at h4
    exact h4
  rw [Nat.shiftRight_eq_div_pow, h15]
  norm_num
  omega

/-- Claim C5.  For every 16-byte identifier, parsing its canonical string
form succeeds and returns the identifier byte-wise unchanged. -/
theorem parse_roundtrip (u : UUID)
    (h : u.b0 < 256 ∧ u.b1 < 256 ∧ u.b2 < 256 ∧ u.b3 < 256 ∧
      u.b4 < 256 ∧ u.b5 < 256 ∧ u.b6 < 256 ∧ u.b7 < 256 ∧
      u.b8 < 256 ∧ u.b9 < 256 ∧ u.b10 < 256 ∧ u.b11 < 256 ∧
      u.b12 < 256 ∧ u.b13 < 256 ∧ u.b14 < 256 ∧ u.b15 < 256) :
    Parse u.String = Except.ok u := by
  have hbridge : Parse u.String = parseChars u.chars := rfl
  rw [hbridge]
  obtain ⟨x0, x1, x2, x3, x4, x5, x6, x7, x8, x9, x10, x11, x12, x13, x14, x15⟩ := u
  obtain ⟨h0, h1, h2, h3, h4, h5, h6, h7, h8, h9, h10, h11, h12, h13, h14, h15⟩ := h
  simp only [UUID.chars, byteChars, List.cons_append, List.nil_append]
  simp [parseChars, decodeHexPairs, decode_hexDigit_hi, decode_hexDigit_lo, uuidOfBytes]
  rw [byte_split x0 h0, byte_split x1 h1, byte_split x2 h2, byte_split x3 h3,
    byte_split x4 h4, byte_split x5 h5, byte_split x6 h6, byte_split x7 h7,
    byte_split x8 h8, byte_split x9 h9, byte_split x10 h10, byte_split x11 h11,
    byte_split x12 h12, byte_split x13 h13, byte_split x14 h14, byte_split x15 h15]
  exact ⟨rfl, rfl, rfl, rfl, rfl, rfl, rfl, rfl, rfl, rfl, rfl, rfl, rfl, rfl, rfl, rfl⟩

/-- Witness for claim C5 at a concrete identifier. -/
theorem parse_roundtrip_witness :
    Parse (UUID.String ⟨0x1e, 0xc9, 0x41, 0x4c, 0x23, 0x2a, 0x6b, 0x00,
        0xb3, 0xc8, 0x9e, 0x6b, 0xde, 0xce, 0xd8, 0x46⟩) =
      Except.ok ⟨0x1e, 0xc9, 0x41, 0x4c, 0x23, 0x2a, 0x6b, 0x00,
        0xb3, 0xc8, 0x9e, 0x6b, 0xde, 0xce, 0xd8, 0x46⟩ :=
  parse_roundtrip ⟨0x1e, 0xc9, 0x41, 0x4c, 0x23, 0x2a, 0x6b, 0x00,
    0xb3, 0xc8, 0x9e, 0x6b, 0xde, 0xce, 0xd8, 0x46⟩ (by decide)

/-- Claim C1 (code bug evidence).  The claim says that with a clock held
fixed, successive `V6Generator.Read` calls return strictly increasing
identifiers.  Evaluating the code on a fresh generator (random seed
`0x1111`, zero-value `prevTime`, node entropy `[1,2,3,4,5,6]`) with the
clock fixed at Unix second 1645557742 shows that the first two calls both
succeed and return byte-wise identical identifiers: the sequence is only
incremented when the clock moves strictly backwards (`n.Before(prevTime)`),
so it never changes on a fixed clock. -/
theorem v6Read_fixed_clock_repeats_identifier :
    (let s0 : V6Generator := ⟨[], 0x1111, ⟨-62135596800, 0⟩⟩
     let n : Time := ⟨1645557742, 0⟩
     let r1 := s0.Read nilUUID n (some [1, 2, 3, 4, 5, 6])
     let r2 := r1.gen.Read nilUUID n (some [1, 2, 3, 4, 5, 6])
     r1.err = none ∧ r2.err = none ∧ r2.id = r1.id) :=
  ⟨rfl, rfl, rfl⟩

/-- Claim C2 (counterexample).  The claim says that when the current tick
count is strictly greater than the stored one, the sequence is reset to 0.
On state `(lastTimestamp = 0, lastSequence = 5)` with the clock at Unix
nanosecond 0 the computed tick count (122192928000000000) is strictly
greater than the stored 0, yet the returned sequence is the unchanged 5,
not 0. -/
theorem nextTimestampAndSequence_keeps_seq_on_advance :
    (generatorV6.nextTimestampAndSequence ⟨0, 5⟩ 0 0 0).1.1 = 122192928000000000 ∧
    (0 : Int) < (generatorV6.nextTimestampAndSequence ⟨0, 5⟩ 0 0 0).1.1 ∧
    (generatorV6.nextTimestampAndSequence ⟨0, 5⟩ 0 0 0).1.2 = 5 ∧
    ¬ (generatorV6.nextTimestampAndSequence ⟨0, 5⟩ 0 0 0).1.2 = 0 := by
  refine ⟨rfl, by decide, rfl, by decide⟩

/-- Claim C2 (amended).  On each draft-V6 generation: on the very first
call (sentinel `lastSequence == -1`, pattern 65535) the sequence is drawn
from the two entropy bytes and masked to 14 bits; otherwise, if the
current tick count is at most the stored one, the previous sequence is
incremented modulo `2^14`; otherwise (ticks strictly greater) the previous
sequence is kept unchanged — it is not reset to 0. -/
theorem nextTimestampAndSequence_cases (g : generatorV6) (nowNano : Int)
    (byte0 byte1 : Nat) (hb0 : byte0 < 256) (hb1 : byte1 < 256) :
    (g.lastSequence = 65535 →
      (g.nextTimestampAndSequence nowNano byte0 byte1).1.2 =
        (byte0 * 256 + byte1) % 16384) ∧
    (g.lastSequence < 16384 →
      ((g.nextTimestampAndSequence nowNano byte0 byte1).1.1 ≤ g.lastTimestamp →
        (g.nextTimestampAndSequence nowNano byte0 byte1).1.2 =
          (g.lastSequence + 1) % 16384) ∧
      (g.lastTimestamp < (g.nextTimestampAndSequence nowNano byte0 byte1).1.1 →
        (g.nextTimestampAndSequence nowNano byte0 byte1).1.2 = g.lastSequence)) := by
  simp only [generatorV6.nextTimestampAndSequence]
  refine ⟨fun hs => ?_, fun hlt => ⟨fun hle => ?_, fun hgt => ?_⟩⟩
  · rw [if_pos hs, Nat.mod_eq_of_lt hb0, Nat.mod_eq_of_lt hb1,
      Nat.mod_eq_of_lt (by omega), and_mask14]
  · rw [if_neg (by omega), if_pos hle, Nat.mod_eq_of_lt (by omega : g.lastSequence + 1 < 65536),
      and_mask14]
  · rw [if_neg (by omega), if_neg (by omega), and_mask14, Nat.mod_eq_of_lt (by omega)]

/-- Witness for the amended claim C2: a concrete first call, sequence
drawn from entropy bytes 179 and 200 masked to 14 bits. -/
theorem nextTimestampAndSequence_cases_witness :
    (generatorV6.nextTimestampAndSequence ⟨0, 65535⟩ 0 179 200).1.2 =
      (179 * 256 + 200) % 16384 :=
  (nextTimestampAndSequence_cases ⟨0, 65535⟩ 0 179 200 (by decide) (by decide)).1 rfl

/-- Claim C3 (code bug evidence).  The claim (and the source comment
"clockSequence is a 14 bits counter") say the clock-sequence values stay
strictly below `2^14`, but the code masks with `0xdfff` instead of
`0x3fff`: the random draw on entropy bytes `0xff 0xff` is
`0xdfff = 57343 ≥ 2^14`, and incrementing `0x3fff` gives
`0x4000 = 16384 ≥ 2^14`. -/
theorem clockSequence_exceeds_14_bits :
    randomClockSequence 255 255 = 57343 ∧
    ¬ randomClockSequence 255 255 < 16384 ∧
    clockSequence.Incr 16383 = 16384 ∧
    ¬ clockSequence.Incr 16383 < 16384 := by
  refine ⟨rfl, by decide, rfl, by decide⟩

/-- Claim C4 (code bug evidence).  The claim says `Parse` rejects every
36-character string lacking a hyphen at any of positions 8, 13, 18, 23.
The code joins the four position checks with `&&`, so it only rejects
when all four are missing: the 36-character input
`00000000-0000z0000-0000-000000000000`, which has `z` instead of the
hyphen at position 13, is accepted (the character at position 13 is
skipped, never decoded) and yields the nil identifier. -/
theorem parse_accepts_missing_inner_hyphen :
    Parse "00000000-0000z0000-0000-000000000000" = Except.ok nilUUID := by rfl

/-- Claim C6.  With node bytes `9e 6b de ce d8 46`, clock sequence seed
`0xb3c8`, the zero-value `prevTime`, and the clock fixed at
2022-02-22T14:22:22-05:00 (Unix second 1645557742, zero nanoseconds),
`V6Generator.Read` succeeds and the identifier formats as
`1ec9414c-232a-6b00-b3c8-9e6bdeced846`. -/
theorem v6Read_literal_vector :
    (V6Generator.Read ⟨[0x9e, 0x6b, 0xde, 0xce, 0xd8, 0x46], 0xb3c8, ⟨-62135596800, 0⟩⟩
        nilUUID ⟨1645557742, 0⟩ none).err = none ∧
    UUID.String (V6Generator.Read ⟨[0x9e, 0x6b, 0xde, 0xce, 0xd8, 0x46], 0xb3c8,
        ⟨-62135596800, 0⟩⟩ nilUUID ⟨1645557742, 0⟩ none).id =
      "1ec9414c-232a-6b00-b3c8-9e6bdeced846" :=
  ⟨rfl, rfl⟩

/-- Claim C7.  With the clock fixed at Unix-millisecond 1645557742000 and
entropy bytes `0c c3 18 c4 dc 0c 0c 07 39 8f`, `V7Generator.Read`
succeeds and the identifier formats as
`017f22e2-79b0-7cc3-98c4-dc0c0c07398f`. -/
theorem v7Read_literal_vector :
    (V7Generator.Read ⟨fun _ => ⟨1645557742, 0⟩,
        fun _ => some [0x0c, 0xc3, 0x18, 0xc4, 0xdc, 0x0c, 0x0c, 0x07, 0x39, 0x8f]⟩
        0 nilUUID).err = none ∧
    UUID.String (V7Generator.Read ⟨fun _ => ⟨1645557742, 0⟩,
        fun _ => some [0x0c, 0xc3, 0x18, 0xc4, 0xdc, 0x0c, 0x0c, 0x07, 0x39, 0x8f]⟩
        0 nilUUID).id =
      "017f22e2-79b0-7cc3-98c4-dc0c0c07398f" :=
  ⟨rfl, rfl⟩

/-- Claim C10.  If the node is still unset and the lazy 6-byte entropy
read fails, `V6Generator.Read` returns a non-nil error and leaves the
caller's identifier buffer and the whole generator state (node, clock
sequence, previous timestamp) exactly as they were. -/
theorem v6Read_entropy_failure_atomic (g : V6Generator) (idIn : UUID) (n : Time)
    (h : g.node = []) :
    (g.Read idIn n none).err.isSome ∧
    (g.Read idIn n none).id = idIn ∧
    (g.Read idIn n none).gen = g := by
  simp [V6Generator.Read, h]

/-- Helper for claim C8: every successfully packed V6 identifier carries
version 6 and variant `10`. -/
theorem v6pack_version_variant (g : V6Generator) (idIn : UUID) (n : Time) :
    (v6pack g idIn n).id.Version = 6 ∧ (v6pack g idIn n).id.Variant = 2 := by
  constructor
  · exact version_stamp6 ⟨_, Nat.mod_lt _ (by omega)⟩
  · exact variant_stamp ⟨_, Nat.mod_lt _ (by omega)⟩

/-- Claim C8.  Every identifier successfully produced by a time-ordered
generator has the generator's fixed version (6 for `V6Generator`, 7 for
`V7Generator`) and variant `10` (value 2), for any state, clock value and
entropy input. -/
theorem read_version_and_variant :
    (∀ (g : V6Generator) (idIn : UUID) (n : Time) (entropy : Option (List Nat)),
      (g.Read idIn n entropy).err = none →
      (g.Read idIn n entropy).id.Version = 6 ∧ (g.Read idIn n entropy).id.Variant = 2) ∧
    (∀ (g : V7Generator) (w : Nat) (idIn : UUID),
      (g.Read w idIn).err = none →
      (g.Read w idIn).id.Version = 7 ∧ (g.Read w idIn).id.Variant = 2) := by
  constructor
  · intro g idIn n entropy h
    unfold V6Generator.Read at h ⊢
    by_cases he : g.node.isEmpty
    · cases entropy with
      | none => simp [he] at h
      | some r => simp only [he, if_true]; exact v6pack_version_variant _ _ _
    · simp only [he, if_false]
      exact v6pack_version_variant _ _ _
  · intro g w idIn h
    unfold V7Generator.Read at h ⊢
    cases hr : g.rand w with
    | none => rw [hr] at h; simp at h
    | some r =>
      exact ⟨version_stamp7 ⟨_, Nat.mod_lt _ (by omega)⟩,
        variant_stamp ⟨_, Nat.mod_lt _ (by omega)⟩⟩

/-- Witness for claim C8 at concrete inputs (node already set for V6). -/
theorem read_version_and_variant_witness :
    ((V6Generator.Read ⟨[1, 2, 3, 4, 5, 6], 0, ⟨0, 0⟩⟩ nilUUID ⟨0, 0⟩ none).id.Version = 6 ∧
      (V6Generator.Read ⟨[1, 2, 3, 4, 5, 6], 0, ⟨0, 0⟩⟩ nilUUID ⟨0, 0⟩ none).id.Variant = 2) ∧
    ((V7Generator.Read ⟨fun _ => ⟨0, 0⟩, fun _ => some [0, 0, 0, 0, 0, 0, 0, 0, 0, 0]⟩
        0 nilUUID).id.Version = 7 ∧
      (V7Generator.Read ⟨fun _ => ⟨0, 0⟩, fun _ => some [0, 0, 0, 0, 0, 0, 0, 0, 0, 0]⟩
        0 nilUUID).id.Variant = 2) :=
  ⟨read_version_and_variant.1 ⟨[1, 2, 3, 4, 5, 6], 0, ⟨0, 0⟩⟩ nilUUID ⟨0, 0⟩ none rfl,
   read_version_and_variant.2 ⟨fun _ => ⟨0, 0⟩, fun _ => some [0, 0, 0, 0, 0, 0, 0, 0, 0, 0]⟩
     0 nilUUID rfl⟩

/-- Claim C9.  A `V7Generator.Read` call is a value-receiver method that
touches no generator-wide mutable state: after any call the generator's
fields (clock function and entropy reader) are unchanged, and the
identifier it produces depends only on the clock value and the ten
entropy bytes consumed in that call (in particular, not on the previous
contents of the caller's buffer). -/
theorem v7Read_stateless (g : V7Generator) (w : Nat) (idIn : UUID) :
    (g.Read w idIn).gen = g ∧
    (∀ (g' : V7Generator) (w' : Nat) (idIn' : UUID) (r : List Nat),
      g.rand w = some r → g'.rand w' = some r → r.length = 10 →
      g.now w = g'.now w' →
      (g.Read w idIn).id = (g'.Read w' idIn').id) := by
  constructor
  · unfold V7Generator.Read
    cases g.rand w <;> rfl
  · intro g' w' idIn' r h1 h2 hlen hnow
    unfold V7Generator.Read
    rw [h1, h2, hnow]
    rcases r with _ | ⟨a0, _ | ⟨a1, _ | ⟨a2, _ | ⟨a3, _ | ⟨a4, _ | ⟨a5, _ | ⟨a6, _ |
      ⟨a7, _ | ⟨a8, _ | ⟨a9, tail⟩⟩⟩⟩⟩⟩⟩⟩⟩⟩ <;>
      first
        | rfl
        | simp at hlen

/-- Witness for claim C9: a concrete generator and a second generator
with a different call index and buffer but the same consumed values. -/
theorem v7Read_stateless_witness :
    ((V7Generator.Read ⟨fun _ => ⟨0, 0⟩, fun _ => some [0, 1, 2, 3, 4, 5, 6, 7, 8, 9]⟩
        0 nilUUID).gen = ⟨fun _ => ⟨0, 0⟩, fun _ => some [0, 1, 2, 3, 4, 5, 6, 7, 8, 9]⟩) ∧
    ((V7Generator.Read ⟨fun _ => ⟨0, 0⟩, fun _ => some [0, 1, 2, 3, 4, 5, 6, 7, 8, 9]⟩
        0 nilUUID).id =
      (V7Generator.Read ⟨fun _ => ⟨0, 0⟩, fun _ => some [0, 1, 2, 3, 4, 5, 6, 7, 8, 9]⟩
        1 ⟨9, 9, 9, 9, 9, 9, 9, 9, 9, 9, 9, 9, 9, 9, 9, 9⟩).id) :=
  ⟨(v7Read_stateless ⟨fun _ => ⟨0, 0⟩, fun _ => some [0, 1, 2, 3, 4, 5, 6, 7, 8, 9]⟩
      0 nilUUID).1,
   (v7Read_stateless ⟨fun _ => ⟨0, 0⟩, fun _ => some [0, 1, 2, 3, 4, 5, 6, 7, 8, 9]⟩
      0 nilUUID).2 ⟨fun _ => ⟨0, 0⟩, fun _ => some [0, 1, 2, 3, 4, 5, 6, 7, 8, 9]⟩
      1 ⟨9, 9, 9, 9, 9, 9, 9, 9, 9, 9, 9, 9, 9, 9, 9, 9⟩ [0, 1, 2, 3, 4, 5, 6, 7, 8, 9]
      rfl rfl rfl rfl⟩

/-- Witness for claim C10 at a concrete generator state. -/
theorem v6Read_entropy_failure_atomic_witness :
    ((⟨[], 7, ⟨3, 4⟩⟩ : V6Generator).Read nilUUID ⟨9, 0⟩ none).err.isSome ∧
    ((⟨[], 7, ⟨3, 4⟩⟩ : V6Generator).Read nilUUID ⟨9, 0⟩ none).id = nilUUID ∧
    ((⟨[], 7, ⟨3, 4⟩⟩ : V6Generator).Read nilUUID ⟨9, 0⟩ none).gen = ⟨[], 7, ⟨3, 4⟩⟩ :=
  v6Read_entropy_failure_atomic ⟨[], 7, ⟨3, 4⟩⟩ nilUUID ⟨9, 0⟩ rfl

end UUIDDraft
